import Mathlib

/-!
# Blockhead Recurring Payments Protocol — verification of the documented behavior

The repository is a documentation site: it describes the external behavior of
two on-chain contracts (a Recurring Payments contract and an Automation Layer
contract) whose Solidity sources are not part of the repository.  The pages
under `src/docs` and the unnamed markdown pages give the ABI, the record
structs, the event definitions and the behavioral rules (grace period,
fee capture/refund, duplicate registration, rollback-on-failure).

This file gives a shallow embedding of the two registries described by those
pages.  Addresses and token identities are modelled as `Nat`, amounts and
timestamps as `Nat` (seconds / token base units), token balances as a finite
association ledger, and each state-changing entry point as a function from a
registry state to `Except`/`Option` of a new state together with the list of
events the call emits.  An error result models a reverted transaction: no
state change and no event survives.
-/

namespace Blockhead

/-- A token ledger: finitely many balances, keyed by `(token, holder)`.
Missing keys read as balance `0`. -/
abbrev Ledger := List ((Nat × Nat) × Nat)

/-- Balance of `k = (token, holder)` in the ledger (0 when absent). -/
def lget (l : Ledger) (k : Nat × Nat) : Nat :=
  match l with
  | [] => 0
  | e :: rest => if e.fst = k then e.snd else lget rest k

/-- Set the balance of key `k` to `v`. -/
def lset (l : Ledger) (k : Nat × Nat) (v : Nat) : Ledger :=
  match l with
  | [] => [(k, v)]
  | e :: rest => if e.fst = k then (k, v) :: rest else e :: lset rest k v

/-- ERC-20 style transfer of `amt` of `token` from `src` to `dst`:
fails (returns `none`, modelling a revert) when the source balance is
insufficient; the docs fold allowance failures into the same
"fee transfer failed" outcome. -/
def transferToken (l : Ledger) (token src dst amt : Nat) : Option Ledger :=
  if amt ≤ lget l (token, src) then
    let l1 := lset l (token, src) (lget l (token, src) - amt)
    some (lset l1 (token, dst) (lget l1 (token, dst) + amt))
  else none

theorem lget_lset_eq (l : Ledger) (k : Nat × Nat) (v : Nat) :
    lget (lset l k v) k = v := by
  induction l with
  | nil => simp [lget, lset]
  | cons e rest ih =>
    by_cases h : e.fst = k
    · simp [lget, lset, h]
    · simp [lget, lset, h, ih]

theorem lget_lset_ne (l : Ledger) (k k' : Nat × Nat) (v : Nat) (h : k' ≠ k) :
    lget (lset l k v) k' = lget l k' := by
  have hk : k ≠ k' := fun hh => h hh.symm
  induction l with
  | nil => simp [lget, lset, hk]
  | cons e rest ih =>
    by_cases he : e.fst = k
    · have he' : e.fst ≠ k' := by rw [he]; exact hk
      simp [lget, lset, he, he', hk]
    · by_cases he' : e.fst = k'
      · simp [lget, lset, he, he', h]
      · simp [lget, lset, he, he', ih]

/-- A successful transfer with distinct endpoints credits the destination by
exactly `amt`, debits the source by exactly `amt`, and leaves every other
key untouched. -/
theorem transferToken_ok (l l' : Ledger) (token src dst amt : Nat)
    (hne : src ≠ dst) (h : transferToken l token src dst amt = some l') :
    lget l' (token, dst) = lget l (token, dst) + amt ∧
    lget l' (token, src) = lget l (token, src) - amt ∧
    ∀ k : Nat × Nat, k ≠ (token, src) → k ≠ (token, dst) → lget l' k = lget l k := by
  unfold transferToken at h
  by_cases hle : amt ≤ lget l (token, src)
  · simp only [if_pos hle, Option.some.injEq] at h
    subst h
    have hsd : (token, dst) ≠ (token, src) := by simp [hne.symm]
    refine ⟨?_, ?_, ?_⟩
    · rw [lget_lset_eq, lget_lset_ne _ _ _ _ hsd]
    · rw [lget_lset_ne _ _ _ _ (by simp [hne]), lget_lset_eq]
    · intro k hk1 hk2
      rw [lget_lset_ne _ _ _ _ hk2, lget_lset_ne _ _ _ _ hk1]
  · simp [if_neg hle] at h

/-- The transfer fails exactly when the source balance is below `amt`. -/
theorem transferToken_none_iff (l : Ledger) (token src dst amt : Nat) :
    transferToken l token src dst amt = none ↔ lget l (token, src) < amt := by
  unfold transferToken
  by_cases hle : amt ≤ lget l (token, src)
  · simp [if_pos hle, Nat.not_lt.mpr hle]
  · simp [if_neg hle, Nat.lt_of_not_le hle]

/-! ## Subscription registry (Recurring Payments contract)

Modelled from the spec: the Recurring Payments contract itself is not in the
repository; the `RecurringPayment` struct, function signatures and event
definitions below follow the Core Functions, Events and ABI pages verbatim,
and the behavioral rules (grace period, authorization, idempotency) follow
the documented semantics. -/

/-- The fixed 24-hour grace period ("Subscriptions remain valid for 24 extra
hours past due date"). -/
def gracePeriodSeconds : Nat := 86400

/-- The `RecurringPayment` struct from the Core Functions page
(`recurringPayments` public mapping). Addresses are `Nat` here. -/
structure RecurringPayment where
  accountNumber : Nat
  sender : Nat
  recipient : Nat
  amount : Nat
  token : Nat
  timeIntervalSeconds : Nat
  paymentInterface : Nat
  additionalInformation : List String
  paymentDue : Nat
  canceled : Bool
deriving Repr, DecidableEq

/-- Registry state: records indexed by `accountNumber` (assignment order),
the token ledger, and the contract owner. -/
structure SubState where
  recurringPayments : List RecurringPayment
  ledger : Ledger
  owner : Nat
deriving Repr, DecidableEq

/-- Events of the Recurring Payments contract (Events page). -/
inductive SubEvent where
  | RecurringPaymentCreated (p : RecurringPayment)
  | RecurringPaymentCancelled (index sender recipient : Nat)
  | PaymentTransferred (index : Nat)
deriving Repr, DecidableEq

/-- Error taxonomy of the documented registries. -/
inductive SubError where
  | AuthorizationFailure
  | NotFound
  | InvalidArgument
  | InsufficientFunds
  | AlreadyTerminal
  | NotYetDue
deriving Repr, DecidableEq

/-- Record lookup by `accountNumber` (the public `recurringPayments` mapping). -/
def lookupPayment (s : SubState) (a : Nat) : Option RecurringPayment :=
  s.recurringPayments[a]?

/-- Modelled from the spec: `createRecurringPayment` (Core Functions §1, ABI).
Allocates the next `accountNumber`, stores the record with
`paymentDue = now + freeTrial`, emits `RecurringPaymentCreated` with every
field of the new record, and moves no tokens (transfers happen only at
charge time). Per the ABI (`outputs: []`) the call returns no value. -/
def createRecurringPayment (now caller recipient amount token intervalSeconds
    interfaceAddr : Nat) (additionalInformation : List String)
    (freeTrialSeconds : Nat) (s : SubState) :
    Except SubError (SubState × List SubEvent) :=
  if amount = 0 ∨ intervalSeconds = 0 then .error .InvalidArgument
  else
    let p : RecurringPayment :=
      { accountNumber := s.recurringPayments.length
        sender := caller
        recipient := recipient
        amount := amount
        token := token
        timeIntervalSeconds := intervalSeconds
        paymentInterface := interfaceAddr
        additionalInformation := additionalInformation
        paymentDue := now + freeTrialSeconds
        canceled := false }
    .ok ({ s with recurringPayments := s.recurringPayments ++ [p] },
         [.RecurringPaymentCreated p])

/-- `isSubscriptionValid` (Core Functions §5): pure view predicate, true iff
the record exists, is not canceled, and `now ≤ paymentDue + 86400`. -/
def isSubscriptionValid (now : Nat) (s : SubState) (a : Nat) : Bool :=
  match lookupPayment s a with
  | none => false
  | some p => !p.canceled && decide (now ≤ p.paymentDue + gracePeriodSeconds)

/-- `getPaymentDue` (Core Functions §4): pure read of `paymentDue`. -/
def getPaymentDue (s : SubState) (a : Nat) : Nat :=
  match lookupPayment s a with
  | none => 0
  | some p => p.paymentDue

/-- `isPaymentCanceled` (Core Functions §7). -/
def isPaymentCanceled (s : SubState) (a : Nat) : Bool :=
  match lookupPayment s a with
  | none => false
  | some p => p.canceled

/-- Modelled from the spec: `cancelRecurringPayment` (Core Functions §6).
Authorized for the stored sender, the stored recipient, or the owner;
re-cancelling an already-canceled record is rejected (AlreadyTerminal);
on success flips `canceled` and emits `RecurringPaymentCancelled`. -/
def cancelRecurringPayment (caller : Nat) (s : SubState) (a : Nat) :
    Except SubError (SubState × List SubEvent) :=
  match lookupPayment s a with
  | none => .error .NotFound
  | some p =>
    if caller ≠ p.sender ∧ caller ≠ p.recipient ∧ caller ≠ s.owner then
      .error .AuthorizationFailure
    else if p.canceled then .error .AlreadyTerminal
    else
      .ok ({ s with recurringPayments :=
               s.recurringPayments.set a { p with canceled := true } },
           [.RecurringPaymentCancelled a p.sender p.recipient])

/-- Modelled from the spec: the automated charge (spec §4.1 Execution).
Rejected before `paymentDue` and on canceled records; pulls `amount` of
`token` from `sender` to `recipient` (the documented fee split has no
documented proportions, so the pull is modelled as a single transfer),
advances `paymentDue`, emits `PaymentTransferred`. A failed transfer aborts
the whole charge: error result, no state change, no event. -/
def executePayment (now : Nat) (s : SubState) (a : Nat) :
    Except SubError (SubState × List SubEvent) :=
  match lookupPayment s a with
  | none => .error .NotFound
  | some p =>
    if p.canceled then .error .AlreadyTerminal
    else if now < p.paymentDue then .error .NotYetDue
    else
      match transferToken s.ledger p.token p.sender p.recipient p.amount with
      | none => .error .InsufficientFunds
      | some l' =>
        .ok ({ s with
                 ledger := l'
                 recurringPayments := s.recurringPayments.set a
                   { p with paymentDue := p.paymentDue + p.timeIntervalSeconds } },
             [.PaymentTransferred a])

/-! ## Automation Layer registry

Modelled from the spec: the AutomationLayer contract is not in the repository;
the `accountsByNumber` record shape comes from the Automation Layer ABI page,
the entry points and fee/refund rules from the Automation Core Functions,
Events and Overview pages. -/

/-- The `accountsByNumber` record from the Automation Layer ABI:
`(account, id, accountCreationFee, cancelled)`. -/
structure AutomationAccount where
  account : Nat
  id : Nat
  accountCreationFee : Nat
  cancelled : Bool
deriving Repr, DecidableEq

/-- Automation Layer state: records indexed by internal `accountNumber`,
the currently configured creation fee and per-call automation fee, the
current fee token address (`duh`), the protocol owner, and the token
ledger. -/
structure AutoState where
  accountsByNumber : List AutomationAccount
  accountCreationFee : Nat
  automationFee : Nat
  duh : Nat
  owner : Nat
  ledger : Ledger
deriving Repr, DecidableEq

/-- Events of the Automation Layer (Automation Events page). -/
inductive AutoEvent where
  | AccountCreated (customer : Nat)
  | AccountCancelled (index account : Nat)
  | TransactionSuccess (index : Nat)
deriving Repr, DecidableEq

/-- Error taxonomy for the Automation Layer mutators. -/
inductive AutoError where
  | AuthorizationFailure
  | DuplicateRegistration
  | NotFound
  | InvalidArgument
  | InsufficientFunds
  | AlreadyTerminal
deriving Repr, DecidableEq

/-- Record lookup by internal `accountNumber` (the `accountsByNumber` view). -/
def lookupAccount (s : AutoState) (a : Nat) : Option AutomationAccount :=
  s.accountsByNumber[a]?

/-- Whether the `(caller, id)` pair is already registered. -/
def pairRegistered (s : AutoState) (caller id : Nat) : Bool :=
  s.accountsByNumber.any (fun r => r.account == caller && r.id == id)

/-- Internal `accountNumber` for a `(caller, id)` pair, when registered. -/
def findAccountNumber (s : AutoState) (caller id : Nat) : Option Nat :=
  s.accountsByNumber.findIdx? (fun r => r.account == caller && r.id == id)

/-- Modelled from the spec: `createAccount(id)` (Automation Core Functions §1).
Rejects `id = 0` and duplicate `(caller, id)` pairs; transfers the currently
configured `accountCreationFee` in the current fee token from the caller to
the owner (failure aborts the whole registration); stores the record with
the fee amount actually charged; emits `AccountCreated(caller)` — which
carries neither the `id` nor the new internal `accountNumber`. -/
def createAccount (caller id : Nat) (s : AutoState) :
    Except AutoError (AutoState × List AutoEvent) :=
  if id = 0 then .error .InvalidArgument
  else if pairRegistered s caller id then .error .DuplicateRegistration
  else
    match transferToken s.ledger s.duh caller s.owner s.accountCreationFee with
    | none => .error .InsufficientFunds
    | some l' =>
      let r : AutomationAccount :=
        { account := caller
          id := id
          accountCreationFee := s.accountCreationFee
          cancelled := false }
      .ok ({ s with ledger := l', accountsByNumber := s.accountsByNumber ++ [r] },
           [.AccountCreated caller])

/-- Modelled from the spec: `cancelAccount(id)` (Automation Core Functions §2).
Only the registering caller can cancel (lookup is keyed by the `(caller, id)`
pair, so a foreign caller finds nothing); re-cancellation is rejected;
the refund transfers the *stored* `accountCreationFee`, denominated in the
*current* fee token `duh`, from the owner back to the caller; a failed
refund aborts the whole cancellation (error result, flag untouched);
on success emits `AccountCancelled(accountNumber, caller)`. -/
def cancelAccount (caller id : Nat) (s : AutoState) :
    Except AutoError (AutoState × List AutoEvent) :=
  match findAccountNumber s caller id with
  | none => .error .NotFound
  | some n =>
    match lookupAccount s n with
    | none => .error .NotFound
    | some r =>
      if r.cancelled then .error .AlreadyTerminal
      else
        match transferToken s.ledger s.duh s.owner caller r.accountCreationFee with
        | none => .error .InsufficientFunds
        | some l' =>
          .ok ({ s with
                   ledger := l'
                   accountsByNumber :=
                     s.accountsByNumber.set n { r with cancelled := true } },
               [.AccountCancelled n caller])

/-- `isAccountCanceled` (Automation Core Functions §5). -/
def isAccountCanceled (s : AutoState) (a : Nat) : Bool :=
  match lookupAccount s a with
  | none => false
  | some r => r.cancelled

/-- Modelled from the spec: the registry-side `checkSimpleAutomation`
(Automation Core Functions §4), instrumented with the list of calls it makes
to the external hook. A cancelled (or unknown) account yields `false`
without invoking the hook; otherwise the external caller contract's
`checkSimpleAutomation(id)` hook is invoked once with the stored `id` and
its boolean is returned verbatim. -/
def checkSimpleAutomationTr (hook : Nat → Nat → Bool) (s : AutoState) (a : Nat) :
    Bool × List (Nat × Nat) :=
  match lookupAccount s a with
  | none => (false, [])
  | some r =>
    if r.cancelled then (false, [])
    else (hook r.account r.id, [(r.account, r.id)])

/-- The registry-side `checkSimpleAutomation` view: just the boolean. -/
def checkSimpleAutomation (hook : Nat → Nat → Bool) (s : AutoState) (a : Nat) :
    Bool :=
  (checkSimpleAutomationTr hook s a).fst

/-- Modelled from the spec: one automation execution attempt by a node
(Automation Events page, `TransactionSuccess`; spec §4.2 execution
handshake). `checkHook caller id` is the external eligibility hook,
`actionHook caller id` tells whether the external `simpleAutomation(id)`
action succeeds. The attempt: reject if cancelled; abort if the check is
false; run the action (failure reverts everything); charge the per-call
`automationFee` from the caller contract to the node (failure reverts
everything, including the provisionally emitted event); on success the
final log holds `TransactionSuccess(accountNumber)`. `none` models a
reverted transaction: no surviving event, no fee movement. -/
def simpleAutomation (checkHook actionHook : Nat → Nat → Bool) (node : Nat)
    (s : AutoState) (a : Nat) : Option (AutoState × List AutoEvent) :=
  match lookupAccount s a with
  | none => none
  | some r =>
    if r.cancelled then none
    else if !(checkHook r.account r.id) then none
    else if !(actionHook r.account r.id) then none
    else
      match transferToken s.ledger s.duh r.account node s.automationFee with
      | none => none
      | some l' => some ({ s with ledger := l' }, [.TransactionSuccess a])

/-- The finalized outcome of an attempt: a reverted attempt leaves the state
unchanged and an empty log. -/
def runAttempt (checkHook actionHook : Nat → Nat → Bool) (node : Nat)
    (s : AutoState) (a : Nat) : AutoState × List AutoEvent :=
  (simpleAutomation checkHook actionHook node s a).getD (s, [])

/-! ## ABI embedding (Recurring Payments ABI page)

The gateway-facing ABI of `createRecurringPayment` is JSON data present in
the repository; it is embedded verbatim here. -/

/-- One ABI parameter: JSON keys `name` and `type`. -/
structure AbiParam where
  name : String
  type : String
deriving Repr, DecidableEq

/-- One ABI function entry: JSON keys `name`, `stateMutability`, `inputs`,
`outputs`. -/
structure AbiFunction where
  name : String
  stateMutability : String
  inputs : List AbiParam
  outputs : List AbiParam
deriving Repr, DecidableEq

/-- The `createRecurringPayment` entry of the Recurring Payments ABI,
transcribed from the JSON on the ABI page. -/
def createRecurringPaymentAbi : AbiFunction :=
  { name := "createRecurringPayment"
    stateMutability := "nonpayable"
    inputs :=
      [ { name := "_recipient", type := "address" }
      , { name := "_amount", type := "uint256" }
      , { name := "_token", type := "address" }
      , { name := "_timeIntervalSeconds", type := "uint256" }
      , { name := "_interface", type := "address" }
      , { name := "_additionalInformation", type := "string[]" }
      , { name := "_freeTrialTimeInSeconds", type := "uint256" } ]
    outputs := [] }

/-! ## Registry lifetime: the state-changing operations as a step relation -/

/-- One state-changing operation of the subscription registry that completed
successfully (reverted calls change nothing, so the registry's lifetime is
exactly a chain of these steps). -/
inductive SubStep : SubState → SubState → Prop where
  | create (now caller recipient amount token intervalSeconds interfaceAddr : Nat)
      (info : List String) (freeTrialSeconds : Nat) (s s' : SubState)
      (ev : List SubEvent)
      (h : createRecurringPayment now caller recipient amount token
        intervalSeconds interfaceAddr info freeTrialSeconds s = .ok (s', ev)) :
      SubStep s s'
  | cancel (caller : Nat) (s : SubState) (a : Nat) (s' : SubState)
      (ev : List SubEvent)
      (h : cancelRecurringPayment caller s a = .ok (s', ev)) : SubStep s s'
  | charge (now : Nat) (s : SubState) (a : Nat) (s' : SubState)
      (ev : List SubEvent)
      (h : executePayment now s a = .ok (s', ev)) : SubStep s s'

/-! ## Concrete sample states used by the witnesses -/

/-- A subscription record as created at `t = 0` with a one-month interval and
a one-week free trial (the worked example of the docs). -/
def samplePayment : RecurringPayment :=
  { accountNumber := 0
    sender := 1
    recipient := 2
    amount := 10
    token := 3
    timeIntervalSeconds := 2592000
    paymentInterface := 4
    additionalInformation := []
    paymentDue := 604800
    canceled := false }

/-- A registry holding just `samplePayment`. -/
def sampleSubState : SubState :=
  { recurringPayments := [samplePayment], ledger := [], owner := 9 }

/-- An empty subscription registry. -/
def subEmpty : SubState :=
  { recurringPayments := [], ledger := [], owner := 9 }

/-- The record a second identical creation stores: same fields, next
`accountNumber`. -/
def samplePayment1 : RecurringPayment :=
  { samplePayment with accountNumber := 1 }

/-- The registry after two identical creations. -/
def sampleSubState2 : SubState :=
  { recurringPayments := [samplePayment, samplePayment1], ledger := [], owner := 9 }

/-- A fresh Automation Layer: fee 50 in token 7, per-call fee 5, owner 9,
callers 1 and 2 and the owner each funded with 100 of token 7. -/
def auto0 : AutoState :=
  { accountsByNumber := []
    accountCreationFee := 50
    automationFee := 5
    duh := 7
    owner := 9
    ledger := [((7, 1), 100), ((7, 2), 100), ((7, 9), 100)] }

/-- `auto0` after caller 1 registered id 5 (fee 50 moved from 1 to the
owner). -/
def auto1 : AutoState :=
  { accountsByNumber := [{ account := 1, id := 5, accountCreationFee := 50, cancelled := false }]
    accountCreationFee := 50
    automationFee := 5
    duh := 7
    owner := 9
    ledger := [((7, 1), 50), ((7, 2), 100), ((7, 9), 150)] }

/-- An Automation Layer whose only account has been cancelled. -/
def autoCancelled : AutoState :=
  { accountsByNumber := [{ account := 1, id := 5, accountCreationFee := 50, cancelled := true }]
    accountCreationFee := 50
    automationFee := 5
    duh := 7
    owner := 9
    ledger := [((7, 1), 50), ((7, 2), 100), ((7, 9), 150)] }

/-- An Automation Layer holding one account registered when the creation fee
was 50 and the fee token was 7, after the global configuration moved to
fee 60 and fee token 8. -/
def autoChanged : AutoState :=
  { accountsByNumber := [{ account := 1, id := 5, accountCreationFee := 50, cancelled := false }]
    accountCreationFee := 60
    automationFee := 5
    duh := 8
    owner := 9
    ledger := [((8, 9), 100), ((7, 9), 100)] }

/-! ## General lemmas -/

theorem isSubscriptionValid_eq_of_some {s : SubState} {a : Nat}
    {p : RecurringPayment} (h : lookupPayment s a = some p) (now : Nat) :
    isSubscriptionValid now s a =
      (!p.canceled && decide (now ≤ p.paymentDue + 86400)) := by
  unfold isSubscriptionValid gracePeriodSeconds
  rw [h]

theorem isSubscriptionValid_eq_of_none {s : SubState} {a : Nat}
    (h : lookupPayment s a = none) (now : Nat) :
    isSubscriptionValid now s a = false := by
  unfold isSubscriptionValid
  rw [h]

theorem createRecurringPayment_ok_elim {now caller recipient amount token
    intervalSeconds interfaceAddr : Nat} {info : List String}
    {freeTrialSeconds : Nat} {s s' : SubState} {ev : List SubEvent}
    (h : createRecurringPayment now caller recipient amount token intervalSeconds
      interfaceAddr info freeTrialSeconds s = .ok (s', ev)) :
    ∃ p : RecurringPayment,
      p.accountNumber = s.recurringPayments.length ∧
      p.paymentDue = now + freeTrialSeconds ∧
      p.canceled = false ∧
      s'.recurringPayments = s.recurringPayments ++ [p] ∧
      s'.ledger = s.ledger ∧ s'.owner = s.owner ∧
      ev = [.RecurringPaymentCreated p] := by
  unfold createRecurringPayment at h
  split at h
  · exact Except.noConfusion h
  · injection h with h2
    injection h2 with hs he
    subst hs
    subst he
    exact ⟨_, rfl, rfl, rfl, rfl, rfl, rfl, rfl⟩

theorem cancelRecurringPayment_ok_elim {caller : Nat} {s : SubState} {a : Nat}
    {s' : SubState} {ev : List SubEvent}
    (h : cancelRecurringPayment caller s a = .ok (s', ev)) :
    ∃ p, lookupPayment s a = some p ∧
      s'.recurringPayments = s.recurringPayments.set a { p with canceled := true } ∧
      s'.ledger = s.ledger ∧ s'.owner = s.owner := by
  unfold cancelRecurringPayment at h
  split at h
  next heq => exact Except.noConfusion h
  next p heq =>
    split at h
    · exact Except.noConfusion h
    · split at h
      · exact Except.noConfusion h
      · injection h with h2
        injection h2 with hs he
        subst hs
        exact ⟨p, heq, rfl, rfl, rfl⟩

theorem executePayment_ok_elim {now : Nat} {s : SubState} {a : Nat}
    {s' : SubState} {ev : List SubEvent}
    (h : executePayment now s a = .ok (s', ev)) :
    ∃ p, lookupPayment s a = some p ∧
      s'.recurringPayments = s.recurringPayments.set a
        { p with paymentDue := p.paymentDue + p.timeIntervalSeconds } ∧
      s'.owner = s.owner := by
  unfold executePayment at h
  split at h
  next heq => exact Except.noConfusion h
  next p heq =>
    split at h
    · exact Except.noConfusion h
    · split at h
      · exact Except.noConfusion h
      · split at h
        · exact Except.noConfusion h
        next l' ht =>
          injection h with h2
          injection h2 with hs he
          subst hs
          exact ⟨p, heq, rfl, rfl⟩

theorem SubStep.length_le {s s' : SubState} (h : SubStep s s') :
    s.recurringPayments.length ≤ s'.recurringPayments.length := by
  cases h with
  | create _ _ _ _ _ _ _ _ _ _ _ _ hc =>
    obtain ⟨p, _, _, _, hrp, _⟩ := createRecurringPayment_ok_elim hc
    rw [hrp]
    simp
  | cancel _ _ _ _ _ hc =>
    obtain ⟨p, _, hrp, _⟩ := cancelRecurringPayment_ok_elim hc
    rw [hrp]
    simp
  | charge _ _ _ _ _ hc =>
    obtain ⟨p, _, hrp, _⟩ := executePayment_ok_elim hc
    rw [hrp]
    simp

theorem subReach_length_le {s s' : SubState}
    (h : Relation.ReflTransGen SubStep s s') :
    s.recurringPayments.length ≤ s'.recurringPayments.length := by
  induction h with
  | refl => exact Nat.le_refl _
  | tail _ hstep ih => exact Nat.le_trans ih hstep.length_le

theorem lookupPayment_isSome_iff (s : SubState) (a : Nat) :
    (lookupPayment s a).isSome = true ↔ a < s.recurringPayments.length := by
  unfold lookupPayment
  rw [Option.isSome_iff_ne_none]
  constructor
  · intro hne
    by_contra hlt
    exact hne (List.getElem?_eq_none (Nat.le_of_not_lt hlt))
  · intro hlt hnone
    rw [List.getElem?_eq_none_iff] at hnone
    omega

theorem cancelRecurringPayment_eq_of_some {caller : Nat} {s : SubState}
    {a : Nat} {p : RecurringPayment} (h : lookupPayment s a = some p) :
    cancelRecurringPayment caller s a =
      (if caller ≠ p.sender ∧ caller ≠ p.recipient ∧ caller ≠ s.owner then
        .error .AuthorizationFailure
      else if p.canceled then .error .AlreadyTerminal
      else
        .ok ({ s with recurringPayments :=
                 s.recurringPayments.set a { p with canceled := true } },
             [.RecurringPaymentCancelled a p.sender p.recipient])) := by
  unfold cancelRecurringPayment
  rw [h]

/-! ## Claim theorems -/

/-- Claim C1: `isSubscriptionValid(a)` at time `now` is true iff the record
`a` exists, its `canceled` flag is false, and `now ≤ paymentDue + 86400`;
in particular it is still true at `paymentDue + 86400` and false at
`paymentDue + 86401`. The call is side-effect free by
construction: the embedding gives it type `Bool`, so it can neither change
the registry state nor `paymentDue`. -/
theorem isSubscriptionValid_spec (now : Nat) (s : SubState) (a : Nat) :
    (isSubscriptionValid now s a = true ↔
      ∃ p, lookupPayment s a = some p ∧ p.canceled = false ∧
        now ≤ p.paymentDue + 86400) ∧
    (∀ p, lookupPayment s a = some p → p.canceled = false →
      isSubscriptionValid (p.paymentDue + 86400) s a = true ∧
      isSubscriptionValid (p.paymentDue + 86401) s a = false) := by
  constructor
  · constructor
    · intro hv
      cases hl : lookupPayment s a with
      | none => rw [isSubscriptionValid_eq_of_none hl] at hv; exact Bool.noConfusion hv
      | some p =>
        rw [isSubscriptionValid_eq_of_some hl] at hv
        simp only [Bool.and_eq_true, Bool.not_eq_true', decide_eq_true_eq] at hv
        exact ⟨p, rfl, hv.1, hv.2⟩
    · rintro ⟨p, hp, hc, hle⟩
      rw [isSubscriptionValid_eq_of_some hp]
      simp [hc, hle]
  · intro p hp hc
    constructor
    · rw [isSubscriptionValid_eq_of_some hp]
      simp [hc]
    · rw [isSubscriptionValid_eq_of_some hp]
      simp only [hc, Bool.not_false, Bool.true_and, decide_eq_false_iff_not]
      omega

/-- Witness for C1: on the concrete registry holding the worked example
(`paymentDue = 604800`), the subscription is valid at `604800 + 86400` and
invalid at `604800 + 86401`. -/
theorem isSubscriptionValid_spec_witness :
    isSubscriptionValid (604800 + 86400) sampleSubState 0 = true ∧
    isSubscriptionValid (604800 + 86401) sampleSubState 0 = false :=
  (isSubscriptionValid_spec 0 sampleSubState 0).2 samplePayment rfl rfl

/-- Claim C7: a successful `createRecurringPayment` at time `now` with
free-trial offset stores a record with `paymentDue = now + freeTrialSeconds`,
moves no tokens (the ledger is unchanged), and the stored record is valid
exactly up to `now + freeTrialSeconds + 86400`. -/
theorem createRecurringPayment_freeTrial (now caller recipient amount token
    intervalSeconds interfaceAddr : Nat) (info : List String)
    (freeTrialSeconds : Nat) (s : SubState)
    (hamt : amount ≠ 0) (hiv : intervalSeconds ≠ 0) :
    ∃ s' p,
      createRecurringPayment now caller recipient amount token intervalSeconds
          interfaceAddr info freeTrialSeconds s =
        .ok (s', [.RecurringPaymentCreated p]) ∧
      p.paymentDue = now + freeTrialSeconds ∧
      s'.ledger = s.ledger ∧
      lookupPayment s' p.accountNumber = some p ∧
      (∀ t, isSubscriptionValid t s' p.accountNumber = true ↔
        t ≤ now + freeTrialSeconds + 86400) := by
  unfold createRecurringPayment
  rw [if_neg (by push_neg; exact ⟨hamt, hiv⟩)]
  have hlp : lookupPayment
      { s with recurringPayments := s.recurringPayments ++
          [{ accountNumber := s.recurringPayments.length
             sender := caller
             recipient := recipient
             amount := amount
             token := token
             timeIntervalSeconds := intervalSeconds
             paymentInterface := interfaceAddr
             additionalInformation := info
             paymentDue := now + freeTrialSeconds
             canceled := false }] }
      s.recurringPayments.length = some
        { accountNumber := s.recurringPayments.length
          sender := caller
          recipient := recipient
          amount := amount
          token := token
          timeIntervalSeconds := intervalSeconds
          paymentInterface := interfaceAddr
          additionalInformation := info
          paymentDue := now + freeTrialSeconds
          canceled := false } := List.getElem?_concat_length _ _
  refine ⟨_, _, rfl, rfl, rfl, hlp, ?_⟩
  intro t
  rw [isSubscriptionValid_eq_of_some hlp]
  simp

/-- Witness for C7: the worked example — creation at `t = 0` with a 30-day
interval and a 7-day free trial on the empty registry. -/
theorem createRecurringPayment_freeTrial_witness :
    ∃ s' p,
      createRecurringPayment 0 1 2 10 3 2592000 4 [] 604800 subEmpty =
        .ok (s', [.RecurringPaymentCreated p]) ∧
      p.paymentDue = 0 + 604800 ∧
      s'.ledger = subEmpty.ledger ∧
      lookupPayment s' p.accountNumber = some p ∧
      (∀ t, isSubscriptionValid t s' p.accountNumber = true ↔
        t ≤ 0 + 604800 + 86400) :=
  createRecurringPayment_freeTrial 0 1 2 10 3 2592000 4 [] 604800 subEmpty
    (by decide) (by decide)

/-- Claim C5: cancelling the same `accountNumber` twice by an authorized
caller succeeds the first time and fails the second time with
`AlreadyTerminal`; afterwards the record shows `canceled = true`, and the
two attempts together emitted exactly one cancellation event — the single
event of the first call, since the failed second call is an error result
(a reverted transaction emitting nothing). -/
theorem cancelRecurringPayment_twice (caller : Nat) (s : SubState) (a : Nat)
    (p : RecurringPayment) (hp : lookupPayment s a = some p)
    (hnc : p.canceled = false)
    (hauth : caller = p.sender ∨ caller = p.recipient ∨ caller = s.owner) :
    ∃ s',
      cancelRecurringPayment caller s a =
        .ok (s', [.RecurringPaymentCancelled a p.sender p.recipient]) ∧
      cancelRecurringPayment caller s' a = .error .AlreadyTerminal ∧
      isPaymentCanceled s' a = true := by
  have hlt : a < s.recurringPayments.length :=
    (lookupPayment_isSome_iff s a).mp (by rw [hp]; rfl)
  have hauth' : ¬(caller ≠ p.sender ∧ caller ≠ p.recipient ∧ caller ≠ s.owner) := by
    tauto
  have hp' : lookupPayment
      { s with recurringPayments :=
          s.recurringPayments.set a { p with canceled := true } } a =
      some { p with canceled := true } := by
    unfold lookupPayment
    exact List.getElem?_set_self hlt
  refine ⟨{ s with recurringPayments :=
      s.recurringPayments.set a { p with canceled := true } }, ?_, ?_, ?_⟩
  · rw [cancelRecurringPayment_eq_of_some hp, if_neg hauth',
      if_neg (by simp [hnc])]
  · rw [cancelRecurringPayment_eq_of_some hp', if_neg (by exact hauth'),
      if_pos rfl]
  · unfold isPaymentCanceled
    rw [hp']

/-- Witness for C5: the payer (address 1) cancels the sample subscription
twice. -/
theorem cancelRecurringPayment_twice_witness :
    ∃ s',
      cancelRecurringPayment 1 sampleSubState 0 =
        .ok (s', [.RecurringPaymentCancelled 0 samplePayment.sender
                    samplePayment.recipient]) ∧
      cancelRecurringPayment 1 s' 0 = .error .AlreadyTerminal ∧
      isPaymentCanceled s' 0 = true :=
  cancelRecurringPayment_twice 1 sampleSubState 0 samplePayment rfl rfl
    (Or.inl rfl)

/-- Claim C8: the `accountNumber` assigned by a successful registration is
distinct from every number assigned before or after it over the registry's
whole lifetime (any interleaving of creations, cancellations and charges),
and an existing record stays retrievable across every later operation —
no operation ever deletes a record. -/
theorem accountNumber_never_reused
    (now1 c1 r1 a1 t1 i1 f1 : Nat) (m1 : List String) (ft1 : Nat)
    (now2 c2 r2 a2 t2 i2 f2 : Nat) (m2 : List String) (ft2 : Nat)
    (s1 s2 s3 s4 : SubState) (p1 p2 : RecurringPayment)
    (h1 : createRecurringPayment now1 c1 r1 a1 t1 i1 f1 m1 ft1 s1 =
      .ok (s2, [.RecurringPaymentCreated p1]))
    (hreach : Relation.ReflTransGen SubStep s2 s3)
    (h2 : createRecurringPayment now2 c2 r2 a2 t2 i2 f2 m2 ft2 s3 =
      .ok (s4, [.RecurringPaymentCreated p2])) :
    p1.accountNumber ≠ p2.accountNumber ∧
    (∀ a, (lookupPayment s2 a).isSome = true →
      (lookupPayment s3 a).isSome = true) := by
  obtain ⟨q1, hn1, _, _, hrp1, _, _, hev1⟩ := createRecurringPayment_ok_elim h1
  obtain ⟨q2, hn2, _, _, hrp2, _, _, hev2⟩ := createRecurringPayment_ok_elim h2
  have hq1 : p1 = q1 := by
    simp only [List.cons.injEq, SubEvent.RecurringPaymentCreated.injEq,
      and_true] at hev1
    exact hev1
  have hq2 : p2 = q2 := by
    simp only [List.cons.injEq, SubEvent.RecurringPaymentCreated.injEq,
      and_true] at hev2
    exact hev2
  have hlen2 : s2.recurringPayments.length = s1.recurringPayments.length + 1 := by
    rw [hrp1]
    simp
  have hle : s2.recurringPayments.length ≤ s3.recurringPayments.length :=
    subReach_length_le hreach
  constructor
  · rw [hq1, hq2, hn1, hn2]
    omega
  · intro a ha
    rw [lookupPayment_isSome_iff] at ha ⊢
    omega

/-- Witness for C8: two consecutive creations on the empty registry assign
account numbers 0 and 1. -/
theorem accountNumber_never_reused_witness :
    samplePayment.accountNumber ≠ samplePayment1.accountNumber ∧
    (∀ a, (lookupPayment sampleSubState a).isSome = true →
      (lookupPayment sampleSubState a).isSome = true) :=
  accountNumber_never_reused 0 1 2 10 3 2592000 4 [] 604800
    0 1 2 10 3 2592000 4 [] 604800
    subEmpty sampleSubState sampleSubState sampleSubState2
    samplePayment samplePayment1
    rfl Relation.ReflTransGen.refl rfl

/-- Claim C3 counterexample: the gateway ABI entry for
`createRecurringPayment` declares an empty `outputs` list (matching the
Solidity signature on the Core Functions page, which ends in `external;`
with no `returns` clause): the call returns no value at all, so in
particular it does not return the newly allocated `accountNumber` to the
caller. -/
theorem createRecurringPaymentAbi_no_return :
    createRecurringPaymentAbi.outputs = [] := rfl

/-- Claim C3 (amended): a successful `createRecurringPayment` returns no
value — the ABI declares no outputs; the newly allocated `accountNumber`
instead reaches the caller through the emitted `RecurringPaymentCreated`
event, whose record carries `accountNumber` equal to the next free index,
under which the stored record is then retrievable. -/
theorem createRecurringPayment_accountNumber_via_event (now caller recipient
    amount token intervalSeconds interfaceAddr : Nat) (info : List String)
    (freeTrialSeconds : Nat) (s : SubState)
    (hamt : amount ≠ 0) (hiv : intervalSeconds ≠ 0) :
    createRecurringPaymentAbi.outputs = [] ∧
    ∃ s' p,
      createRecurringPayment now caller recipient amount token intervalSeconds
          interfaceAddr info freeTrialSeconds s =
        .ok (s', [.RecurringPaymentCreated p]) ∧
      p.accountNumber = s.recurringPayments.length ∧
      lookupPayment s' p.accountNumber = some p := by
  refine ⟨rfl, ?_⟩
  unfold createRecurringPayment
  rw [if_neg (by push_neg; exact ⟨hamt, hiv⟩)]
  exact ⟨_, _, rfl, rfl, List.getElem?_concat_length _ _⟩

/-- Witness for C3 (amended): creation on the empty registry. -/
theorem createRecurringPayment_accountNumber_via_event_witness :
    createRecurringPaymentAbi.outputs = [] ∧
    ∃ s' p,
      createRecurringPayment 0 1 2 10 3 2592000 4 [] 604800 subEmpty =
        .ok (s', [.RecurringPaymentCreated p]) ∧
      p.accountNumber = subEmpty.recurringPayments.length ∧
      lookupPayment s' p.accountNumber = some p :=
  createRecurringPayment_accountNumber_via_event 0 1 2 10 3 2592000 4 []
    604800 subEmpty (by decide) (by decide)

/-! ## Automation Layer lemmas -/

theorem lookupAccount_isSome_iff (s : AutoState) (a : Nat) :
    (lookupAccount s a).isSome = true ↔ a < s.accountsByNumber.length := by
  unfold lookupAccount
  rw [Option.isSome_iff_ne_none]
  constructor
  · intro hne
    by_contra hlt
    exact hne (List.getElem?_eq_none (Nat.le_of_not_lt hlt))
  · intro hlt hnone
    rw [List.getElem?_eq_none_iff] at hnone
    omega

theorem cancelAccount_eq_of_found {caller id : Nat} {s : AutoState} {n : Nat}
    {r : AutomationAccount} (hfind : findAccountNumber s caller id = some n)
    (hr : lookupAccount s n = some r) :
    cancelAccount caller id s =
      (if r.cancelled then .error .AlreadyTerminal
      else
        match transferToken s.ledger s.duh s.owner caller r.accountCreationFee with
        | none => .error .InsufficientFunds
        | some l' =>
          .ok ({ s with
                   ledger := l'
                   accountsByNumber :=
                     s.accountsByNumber.set n { r with cancelled := true } },
               [.AccountCancelled n caller])) := by
  unfold cancelAccount
  rw [hfind]
  simp only [hr]

theorem createAccount_ok_elim {caller id : Nat} {s s' : AutoState}
    {ev : List AutoEvent} (h : createAccount caller id s = .ok (s', ev)) :
    s'.accountsByNumber = s.accountsByNumber ++
      [{ account := caller, id := id,
         accountCreationFee := s.accountCreationFee, cancelled := false }] ∧
    s'.accountCreationFee = s.accountCreationFee ∧
    s'.automationFee = s.automationFee ∧
    s'.duh = s.duh ∧ s'.owner = s.owner ∧
    ev = [.AccountCreated caller] := by
  unfold createAccount at h
  split at h
  · exact Except.noConfusion h
  · split at h
    · exact Except.noConfusion h
    · split at h
      · exact Except.noConfusion h
      next l' ht =>
        injection h with h2
        injection h2 with hs he
        subst hs
        subst he
        exact ⟨rfl, rfl, rfl, rfl, rfl, rfl⟩

/-- Claim C4: a successful `cancelAccount` refunds to the caller exactly the
`accountCreationFee` stored in the account record at creation (whatever the
currently configured global fee is), and a refund that cannot be completed
makes the whole cancellation fail with an error — a reverted transaction —
so the registry still shows the account as not cancelled. -/
theorem cancelAccount_refund_exact (caller id : Nat) (s : AutoState) (n : Nat)
    (r : AutomationAccount)
    (hfind : findAccountNumber s caller id = some n)
    (hr : lookupAccount s n = some r)
    (hnc : r.cancelled = false)
    (hco : caller ≠ s.owner) :
    (r.accountCreationFee ≤ lget s.ledger (s.duh, s.owner) →
      ∃ s', cancelAccount caller id s = .ok (s', [.AccountCancelled n caller]) ∧
        lget s'.ledger (s.duh, caller) =
          lget s.ledger (s.duh, caller) + r.accountCreationFee ∧
        isAccountCanceled s' n = true) ∧
    (lget s.ledger (s.duh, s.owner) < r.accountCreationFee →
      cancelAccount caller id s = .error .InsufficientFunds ∧
      isAccountCanceled s n = false) := by
  have hlt : n < s.accountsByNumber.length :=
    (lookupAccount_isSome_iff s n).mp (by rw [hr]; rfl)
  have hc := @cancelAccount_eq_of_found caller id s n r hfind hr
  constructor
  · intro hfee
    cases ht : transferToken s.ledger s.duh s.owner caller r.accountCreationFee with
    | none =>
      rw [transferToken_none_iff] at ht
      omega
    | some l' =>
      obtain ⟨hdst, hsrc, hother⟩ :=
        transferToken_ok _ _ _ _ _ _ (fun hh => hco hh.symm) ht
      rw [hc, if_neg (by simp [hnc]), ht]
      refine ⟨{ s with
          ledger := l'
          accountsByNumber :=
            s.accountsByNumber.set n { r with cancelled := true } },
        rfl, hdst, ?_⟩
      unfold isAccountCanceled lookupAccount
      rw [List.getElem?_set_self hlt]
  · intro hfee
    have ht : transferToken s.ledger s.duh s.owner caller r.accountCreationFee
        = none := (transferToken_none_iff _ _ _ _ _).mpr hfee
    refine ⟨?_, ?_⟩
    · rw [hc, if_neg (by simp [hnc]), ht]
    · unfold isAccountCanceled
      rw [hr]
      exact hnc

/-- Witness for C4: cancelling on `autoChanged` (stored fee 50, current fee
configuration 60) refunds exactly 50. -/
theorem cancelAccount_refund_exact_witness :
    ∃ s', cancelAccount 1 5 autoChanged = .ok (s', [.AccountCancelled 0 1]) ∧
      lget s'.ledger (autoChanged.duh, 1) =
        lget autoChanged.ledger (autoChanged.duh, 1) + 50 ∧
      isAccountCanceled s' 0 = true :=
  (cancelAccount_refund_exact 1 5 autoChanged 0
    { account := 1, id := 5, accountCreationFee := 50, cancelled := false }
    rfl rfl rfl (by decide)).1 (by decide)

/-- Claim C10: the refund of a successful `cancelAccount` is denominated in
the fee token configured at cancellation time (`duh` now), while its amount
is the `accountCreationFee` stored at creation: only the two current-fee-token
balances of owner and caller move (owner down, caller up, by the stored
amount); every balance in any other token — in particular the fee token of
creation time, when the configuration changed — is untouched. -/
theorem cancelAccount_refund_token (caller id : Nat) (s : AutoState) (n : Nat)
    (r : AutomationAccount)
    (hfind : findAccountNumber s caller id = some n)
    (hr : lookupAccount s n = some r)
    (hnc : r.cancelled = false)
    (hco : caller ≠ s.owner)
    (hfee : r.accountCreationFee ≤ lget s.ledger (s.duh, s.owner)) :
    ∃ s', cancelAccount caller id s = .ok (s', [.AccountCancelled n caller]) ∧
      s'.duh = s.duh ∧
      lget s'.ledger (s.duh, s.owner) =
        lget s.ledger (s.duh, s.owner) - r.accountCreationFee ∧
      lget s'.ledger (s.duh, caller) =
        lget s.ledger (s.duh, caller) + r.accountCreationFee ∧
      (∀ k : Nat × Nat, k ≠ (s.duh, s.owner) → k ≠ (s.duh, caller) →
        lget s'.ledger k = lget s.ledger k) := by
  have hc := @cancelAccount_eq_of_found caller id s n r hfind hr
  cases ht : transferToken s.ledger s.duh s.owner caller r.accountCreationFee with
  | none =>
    rw [transferToken_none_iff] at ht
    omega
  | some l' =>
    obtain ⟨hdst, hsrc, hother⟩ :=
      transferToken_ok _ _ _ _ _ _ (fun hh => hco hh.symm) ht
    rw [hc, if_neg (by simp [hnc]), ht]
    exact ⟨{ s with
        ledger := l'
        accountsByNumber :=
          s.accountsByNumber.set n { r with cancelled := true } },
      rfl, rfl, hsrc, hdst, hother⟩

/-- Witness for C10: on `autoChanged` the fee token moved from 7 to 8 and
the configured fee from 50 to 60 after creation; the refund moves 50 (the
stored amount) of token 8 (the current fee token), and the token-7 balances
are untouched. -/
theorem cancelAccount_refund_token_witness :
    ∃ s', cancelAccount 1 5 autoChanged = .ok (s', [.AccountCancelled 0 1]) ∧
      s'.duh = autoChanged.duh ∧
      lget s'.ledger (autoChanged.duh, autoChanged.owner) =
        lget autoChanged.ledger (autoChanged.duh, autoChanged.owner) - 50 ∧
      lget s'.ledger (autoChanged.duh, 1) =
        lget autoChanged.ledger (autoChanged.duh, 1) + 50 ∧
      (∀ k : Nat × Nat, k ≠ (autoChanged.duh, autoChanged.owner) →
        k ≠ (autoChanged.duh, 1) →
        lget s'.ledger k = lget autoChanged.ledger k) :=
  cancelAccount_refund_token 1 5 autoChanged 0
    { account := 1, id := 5, accountCreationFee := 50, cancelled := false }
    rfl rfl rfl (by decide) (by decide)

/-- Claim C6: after a successful `createAccount(id)` by caller `c`, a second
`createAccount(id)` by the same caller fails with `DuplicateRegistration`
(an error result — a reverted transaction changing nothing), while a
`createAccount(id)` with the same `id` by a different, funded caller `c'`
succeeds and is assigned the next internal `accountNumber`, distinct from
every previously assigned one (every registered index). -/
theorem createAccount_duplicate_distinct (c c' id : Nat) (s s' : AutoState)
    (ev : List AutoEvent)
    (hid : id ≠ 0) (hcc : c' ≠ c)
    (h1 : createAccount c id s = .ok (s', ev))
    (hnp : pairRegistered s c' id = false)
    (hfunds : s'.accountCreationFee ≤ lget s'.ledger (s'.duh, c')) :
    createAccount c id s' = .error .DuplicateRegistration ∧
    (∃ s'' r, createAccount c' id s' = .ok (s'', [.AccountCreated c']) ∧
      lookupAccount s'' s'.accountsByNumber.length = some r ∧
      r.account = c' ∧ r.id = id ∧
      (∀ m, (lookupAccount s' m).isSome = true →
        m ≠ s'.accountsByNumber.length)) := by
  obtain ⟨hacc, hfee, hauto, hduh, howner, hev⟩ := createAccount_ok_elim h1
  constructor
  · have hdup : pairRegistered s' c id = true := by
      unfold pairRegistered
      rw [hacc]
      simp
    unfold createAccount
    rw [if_neg hid, if_pos hdup]
  · have hnp' : pairRegistered s' c' id = false := by
      have hb : (c == c') = false :=
        beq_eq_false_iff_ne.mpr (fun hh => hcc hh.symm)
      unfold pairRegistered at hnp ⊢
      rw [hacc]
      simp only [List.any_append, List.any_cons, List.any_nil, hnp, hb]
      rfl
    unfold createAccount
    rw [if_neg hid, if_neg (by simp [hnp'])]
    cases ht : transferToken s'.ledger s'.duh c' s'.owner s'.accountCreationFee with
    | none =>
      rw [transferToken_none_iff] at ht
      omega
    | some l' =>
      refine ⟨{ s' with
          ledger := l'
          accountsByNumber := s'.accountsByNumber ++
            [{ account := c', id := id,
               accountCreationFee := s'.accountCreationFee, cancelled := false }] },
        { account := c', id := id,
          accountCreationFee := s'.accountCreationFee, cancelled := false },
        rfl, ?_, rfl, rfl, ?_⟩
      · unfold lookupAccount
        exact List.getElem?_concat_length _ _
      · intro m hm
        rw [lookupAccount_isSome_iff] at hm
        omega

/-- Witness for C6: caller 1 registers id 5 on the fresh layer; the repeat
fails, while caller 2 succeeds and receives internal account number 1. -/
theorem createAccount_duplicate_distinct_witness :
    createAccount 1 5 auto1 = .error .DuplicateRegistration ∧
    (∃ s'' r, createAccount 2 5 auto1 = .ok (s'', [.AccountCreated 2]) ∧
      lookupAccount s'' auto1.accountsByNumber.length = some r ∧
      r.account = 2 ∧ r.id = 5 ∧
      (∀ m, (lookupAccount auto1 m).isSome = true →
        m ≠ auto1.accountsByNumber.length)) :=
  createAccount_duplicate_distinct 1 2 5 auto0 auto1 [.AccountCreated 1]
    (by decide) (by decide) rfl (by decide) (by decide)

/-- Claim C9: for a cancelled automation account, the registry-side
`checkSimpleAutomation` returns `false` (it does not fail) and makes no call
to the external hook; for a non-cancelled account it returns verbatim the
boolean produced by the external hook, called exactly once with the stored
caller address and `id`. -/
theorem checkSimpleAutomation_spec (hook : Nat → Nat → Bool) (s : AutoState)
    (a : Nat) (r : AutomationAccount) (hr : lookupAccount s a = some r) :
    (r.cancelled = true →
      checkSimpleAutomation hook s a = false ∧
      checkSimpleAutomationTr hook s a = (false, [])) ∧
    (r.cancelled = false →
      checkSimpleAutomation hook s a = hook r.account r.id ∧
      checkSimpleAutomationTr hook s a =
        (hook r.account r.id, [(r.account, r.id)])) := by
  have htr : checkSimpleAutomationTr hook s a =
      (if r.cancelled then (false, [])
       else (hook r.account r.id, [(r.account, r.id)])) := by
    unfold checkSimpleAutomationTr
    rw [hr]
  constructor
  · intro hcan
    have h2 : checkSimpleAutomationTr hook s a = (false, []) := by
      rw [htr, if_pos hcan]
    exact ⟨by unfold checkSimpleAutomation; rw [h2], h2⟩
  · intro hcan
    have h2 : checkSimpleAutomationTr hook s a =
        (hook r.account r.id, [(r.account, r.id)]) := by
      rw [htr, if_neg (by simp [hcan])]
    exact ⟨by unfold checkSimpleAutomation; rw [h2], h2⟩

/-- Witness for C9: on a layer whose only account is cancelled, the check is
false and the hook-call trace is empty, even under a hook that always
answers true. -/
theorem checkSimpleAutomation_spec_witness :
    checkSimpleAutomation (fun _ _ => true) autoCancelled 0 = false ∧
    checkSimpleAutomationTr (fun _ _ => true) autoCancelled 0 = (false, []) :=
  (checkSimpleAutomation_spec (fun _ _ => true) autoCancelled 0
    { account := 1, id := 5, accountCreationFee := 50, cancelled := true }
    rfl).1 rfl

/-- Claim C2: a `TransactionSuccess(a)` event appears in the finalized log of
an automation attempt iff the account is not cancelled, the delegated check
returned true, the external action succeeded and the per-call fee transfer
completed; any failure along the way reverts the whole attempt — the
finalized outcome is the original state with an empty log (zero events, no
fee moved) — and on success the node is paid exactly the per-call fee. -/
theorem transactionSuccess_iff (checkHook actionHook : Nat → Nat → Bool)
    (node : Nat) (s : AutoState) (a : Nat) (r : AutomationAccount)
    (hr : lookupAccount s a = some r) (hna : r.account ≠ node) :
    (AutoEvent.TransactionSuccess a ∈
        (runAttempt checkHook actionHook node s a).2 ↔
      r.cancelled = false ∧ checkHook r.account r.id = true ∧
      actionHook r.account r.id = true ∧
      s.automationFee ≤ lget s.ledger (s.duh, r.account)) ∧
    (simpleAutomation checkHook actionHook node s a = none →
      runAttempt checkHook actionHook node s a = (s, [])) ∧
    (∀ s' ev, simpleAutomation checkHook actionHook node s a = some (s', ev) →
      lget s'.ledger (s.duh, node) =
        lget s.ledger (s.duh, node) + s.automationFee) := by
  have hsim : simpleAutomation checkHook actionHook node s a =
      (if r.cancelled then none
       else if !(checkHook r.account r.id) then none
       else if !(actionHook r.account r.id) then none
       else
         match transferToken s.ledger s.duh r.account node s.automationFee with
         | none => none
         | some l' => some ({ s with ledger := l' }, [.TransactionSuccess a])) := by
    unfold simpleAutomation
    rw [hr]
  refine ⟨?_, ?_, ?_⟩
  · unfold runAttempt
    rw [hsim]
    by_cases hcan : r.cancelled = true
    · rw [if_pos hcan]
      simp [hcan]
    · have hcan' : r.cancelled = false := by simpa using hcan
      rw [if_neg hcan]
      by_cases hchk : checkHook r.account r.id = true
      · rw [if_neg (by simp [hchk])]
        by_cases hact : actionHook r.account r.id = true
        · rw [if_neg (by simp [hact])]
          cases ht : transferToken s.ledger s.duh r.account node
              s.automationFee with
          | none =>
            rw [transferToken_none_iff] at ht
            simp [hcan', hchk, hact]
            omega
          | some l' =>
            have hle : s.automationFee ≤ lget s.ledger (s.duh, r.account) := by
              by_contra hlt
              have := (transferToken_none_iff s.ledger s.duh r.account node
                s.automationFee).mpr (Nat.lt_of_not_le hlt)
              rw [ht] at this
              exact Option.noConfusion this
            simp [hcan', hchk, hact, hle]
        · have hact' : actionHook r.account r.id = false := by simpa using hact
          rw [if_pos (by simp [hact'])]
          simp [hact']
      · have hchk' : checkHook r.account r.id = false := by simpa using hchk
        rw [if_pos (by simp [hchk'])]
        simp [hchk']
  · intro h
    unfold runAttempt
    rw [h]
    rfl
  · intro s' ev hsome
    rw [hsim] at hsome
    split at hsome
    · exact Option.noConfusion hsome
    · split at hsome
      · exact Option.noConfusion hsome
      · split at hsome
        · exact Option.noConfusion hsome
        · split at hsome
          · exact Option.noConfusion hsome
          next l' ht =>
            injection hsome with h2
            injection h2 with hs he
            subst hs
            exact (transferToken_ok _ _ _ _ _ _ hna ht).1

/-- Witness for C2: on the fresh layer after one registration, with hooks
that always succeed, the attempt by node 3 finalizes with the success event
in its log. -/
theorem transactionSuccess_iff_witness :
    AutoEvent.TransactionSuccess 0 ∈
      (runAttempt (fun _ _ => true) (fun _ _ => true) 3 auto1 0).2 :=
  (transactionSuccess_iff (fun _ _ => true) (fun _ _ => true) 3 auto1 0
    { account := 1, id := 5, accountCreationFee := 50, cancelled := false }
    rfl (by decide)).1.mpr ⟨rfl, rfl, rfl, by decide⟩

end Blockhead
